import Mathlib

/-!
Shallow embedding of the environment lifecycle manager found in
`src/kubernetes/cli/challenges.py` and `src/kubernetes/cli/main.py`.

External effects (subprocess invocations, file system, HTTP, clocks) are
modelled by explicit environment records whose fields give the outcome of
each effectful step; the Python functions become total Lean functions over
those environments.  Python exceptions are modelled with `Except`; a
`try/except`/`try/finally` block becomes an explicit `match` on the body's
`Except` value.  External commands run with `check=False` are modelled as
total (the code only inspects their exit code); commands run with
`check=True` are modelled as possibly raising, controlled by the
environment.
-/

/-- Python truthiness of an optional string: `None` and `""` are falsy. -/
def truthyStr : Option String → Bool
  | none => false
  | some s => !s.isEmpty

/-! ## Health Prober (`ChallengeManager.check_health`) -/

/-- Outcome of the `requests.get` call inside `check_health`: either an HTTP
response with a status code, or one of the exception classes handled by the
outer `except` clauses of `check_health`. -/
inductive HttpOutcome where
  | ok (code : Nat)
  | connectTimeout
  | connectionError
  | timeout
  | requestException
  | otherException
deriving DecidableEq, Repr

/-- Exceptions that can escape the inner `try` of `check_health` (after the
port-forward process has been started) and reach the outer handlers. -/
inductive ProbeExc where
  | connectTimeout
  | connectionError
  | timeout
  | requestException
  | other
deriving DecidableEq, Repr

/-- Environment for one `check_health` call: whether
`kubectl get service flagsmith-api` exits 0, whether the port-forward
process has already exited after the 2s settle (`poll() is not None`), and
the outcome of the HTTP GET. -/
structure HealthEnv where
  serviceExists : Bool
  tunnelExitedEarly : Bool
  httpResult : HttpOutcome
deriving DecidableEq, Repr

/-- Result of `check_health`, extended with two observation flags recording
whether the port-forward (tunnel) process was started during the call and
whether it was terminated (graceful `terminate`/`wait`, falling back to
`kill`) before the call returned. -/
structure ProbeResult where
  healthy : Bool
  message : String
  httpStatus : Option Nat
  tunnelStarted : Bool
  tunnelTerminated : Bool
deriving DecidableEq, Repr

/-- Body of the inner `try` of `check_health`: everything between starting
the port-forward process and the `finally` block.  Mirrors the source: the
early-exit check on the tunnel, then the HTTP GET and the status-code
classification chain. -/
def probeBody (env : HealthEnv) : Except ProbeExc (Bool × String × Option Nat) :=
  if env.tunnelExitedEarly then
    .ok (false, "Port-forward failed", none)
  else
    match env.httpResult with
    | .ok code =>
      if code = 200 then .ok (true, "Healthy", some code)
      else if code = 404 then .ok (false, "Endpoint not found", some code)
      else if code = 500 then .ok (false, "Server error", some code)
      else if code = 503 then .ok (false, "Service unavailable", some code)
      else .ok (false, "HTTP " ++ toString code, some code)
    | .connectTimeout => .error .connectTimeout
    | .connectionError => .error .connectionError
    | .timeout => .error .timeout
    | .requestException => .error .requestException
    | .otherException => .error .other

/-- The outer `except` clauses of `check_health`, mapping each exception
class to its returned triple. -/
def handleProbeExc : ProbeExc → Bool × String × Option Nat
  | .connectTimeout => (false, "Connection timeout", none)
  | .connectionError => (false, "Cannot connect to service", none)
  | .timeout => (false, "Request timeout", none)
  | .requestException => (false, "Network error", none)
  | .other => (false, "Health check failed", none)

/-- Embedding of `ChallengeManager.check_health`.  When the API service is
missing it returns immediately with no tunnel; otherwise the tunnel is
started, the inner `try` body runs, the `finally` block terminates the
tunnel on every path (normal return and exception propagation alike), and
any propagating exception is then classified by the outer handlers. -/
def check_health (env : HealthEnv) : ProbeResult :=
  if !env.serviceExists then
    { healthy := false, message := "Service not deployed", httpStatus := none,
      tunnelStarted := false, tunnelTerminated := false }
  else
    let body := probeBody env
    let terminated := true
    match body with
    | .ok (h, m, s) =>
      { healthy := h, message := m, httpStatus := s,
        tunnelStarted := true, tunnelTerminated := terminated }
    | .error e =>
      let r := handleProbeExc e
      { healthy := r.1, message := r.2.1, httpStatus := r.2.2,
        tunnelStarted := true, tunnelTerminated := terminated }

/-! ## Scenario catalog (`discover_challenges`, `_parse_challenge_file`) -/

/-- One entry of a challenge's `kubectl_patches` list, as the Python dict
accessed with `.get`: absent keys are `none`.  The patch body and the
values/estimates mappings are kept as opaque association lists. -/
structure PatchEntry where
  resource : Option String
  name : Option String
  nspace : Option String
  patch : List (String × String)
  patch_type : Option String
deriving DecidableEq, Repr

/-- Embedding of the `Challenge` class: the fields stored by its
constructor (the lazily-loaded manual is not part of the record). -/
structure Challenge where
  filename : String
  name : String
  description : String
  helm_values : List (String × String)
  kubectl_patches : List PatchEntry
  estimates : List (String × String)
deriving DecidableEq, Repr

/-- Top-level keys of a parsed challenge YAML mapping; a key absent from
the file is `none`. -/
structure RawChallengeData where
  name : Option String
  description : Option String
  helm_values : Option (List (String × String))
  kubectl_patches : Option (List PatchEntry)
  estimates : Option (List (String × String))
deriving DecidableEq, Repr

/-- Result of `yaml.safe_load` on one file: a parse/read error
(`yaml.YAMLError` or `OSError`), a document that is not a mapping, or a
mapping with the recognised top-level keys. -/
inductive ParsedYaml where
  | failure
  | nonDict
  | dict (d : RawChallengeData)
deriving DecidableEq, Repr

/-- One candidate file of the challenges directory: its name and what
parsing its content yields. -/
structure SourceFile where
  filename : String
  content : ParsedYaml
deriving DecidableEq, Repr

/-- Embedding of `_parse_challenge_file`: parse errors yield `None`; a
non-mapping document or a mapping missing any of the five required fields
(`name`, `description`, `helm_values`, `kubectl_patches`, `estimates`)
yields `None`; otherwise a `Challenge` is built from the fields. -/
def _parse_challenge_file (f : SourceFile) : Option Challenge :=
  match f.content with
  | .failure => none
  | .nonDict => none
  | .dict d =>
    match d.name, d.description, d.helm_values, d.kubectl_patches, d.estimates with
    | some n, some de, some hv, some kp, some es =>
      some { filename := f.filename, name := n, description := de,
             helm_values := hv, kubectl_patches := kp, estimates := es }
    | _, _, _, _, _ => none

/-- Embedding of `discover_challenges` on the sorted list of `*.yaml`
files: each file is parsed inside a `try/except` that drops any failure,
and only files parsed to a `Challenge` are appended to the catalog. -/
def discover_challenges (files : List SourceFile) : List Challenge :=
  files.filterMap _parse_challenge_file

/-- Validity predicate used to state the discovery claim: the file parses
to a mapping holding all five required fields. -/
def fileIsValid (f : SourceFile) : Bool :=
  match f.content with
  | .dict d =>
    d.name.isSome && d.description.isSome && d.helm_values.isSome &&
      d.kubectl_patches.isSome && d.estimates.isSome
  | _ => false

/-! ## Patch application (`_apply_kubectl_patches`) -/

/-- A fully-resolved `kubectl patch` invocation as built by
`_apply_kubectl_patches` for one actionable patch entry. -/
structure PatchCmd where
  resource : String
  name : String
  nspace : String
  patchType : String
  body : List (String × String)
deriving DecidableEq, Repr

/-- Per-entry logic of the loop body of `_apply_kubectl_patches`: read the
entry's keys (namespace defaulting to the manager's namespace, patch type
defaulting to `"merge"`), skip the entry when `resource` or `name` is falsy
or the patch body is empty, and otherwise build the `kubectl patch`
command. -/
def patchStep (defaultNs : String) (p : PatchEntry) : Option PatchCmd :=
  let nspace := p.nspace.getD defaultNs
  let ptype := p.patch_type.getD "merge"
  if !truthyStr p.resource || !truthyStr p.name || p.patch.isEmpty then none
  else
    some { resource := p.resource.getD "", name := p.name.getD "",
           nspace := nspace, patchType := ptype, body := p.patch }

/-- Loop of `_apply_kubectl_patches`: walks the entries in list order,
collecting the attempted `kubectl patch` commands and counting the warnings
printed for commands that fail (the `except` clause logs and continues).
`failAt k` tells whether the `k`-th attempted command raises. -/
def applyPatchesAux (defaultNs : String) (failAt : Nat → Bool) :
    Nat → List PatchEntry → List PatchCmd × Nat
  | _, [] => ([], 0)
  | k, p :: rest =>
    match patchStep defaultNs p with
    | none => applyPatchesAux defaultNs failAt k rest
    | some cmd =>
      let (cmds, warns) := applyPatchesAux defaultNs failAt (k + 1) rest
      (cmd :: cmds, (if failAt k then 1 else 0) + warns)

/-- Embedding of `_apply_kubectl_patches`: returns the attempted commands
in order together with the number of logged warnings; it never raises to
its caller. -/
def _apply_kubectl_patches (failAt : Nat → Bool) (patches : List PatchEntry) :
    List PatchCmd × Nat :=
  applyPatchesAux "flagsmith" failAt 0 patches

/-! ## Environment Provisioner (`setup_challenge`) -/

/-- Which configuration was materialized into `/tmp/flagsmith-values.yaml`:
the challenge's `helm_values` serialized verbatim with `yaml.dump`, or a
copy of the chart's default `values.yaml`. -/
inductive ValuesSource where
  | custom (vals : List (String × String))
  | chartDefaults
deriving DecidableEq, Repr

/-- Environment for one `setup_challenge` call: whether
`/tmp/flagsmith-charts` already exists, and whether each command run with
`check=True` succeeds (`git clone`, `cp` of the default values file,
`helm upgrade --install`).  `patchFailAt` drives the per-patch failures of
`_apply_kubectl_patches`.  The commands run with `check=False` (namespace
creation, `helm repo` maintenance, dependency build) cannot raise and so
need no outcome here. -/
structure SetupEnv where
  chartsPresent : Bool
  gitCloneOk : Bool
  cpOk : Bool
  helmUpgradeOk : Bool
  patchFailAt : Nat → Bool

/-- Observable outcome of one `setup_challenge` call: the manager's
`current_challenge` field after the call, the configuration source that was
materialized (`none` when an exception struck before that step completed),
the `kubectl patch` commands attempted, and the returned boolean. -/
structure SetupTrace where
  current_challenge : Option Challenge
  valuesUsed : Option ValuesSource
  patchesAttempted : List PatchCmd
  success : Bool

/-- Embedding of `ChallengeManager.setup_challenge`.  The field
`current_challenge` is assigned before the `try` block.  Inside the `try`:
cleanup and settle, namespace creation (`check=False`), `git clone` when
the charts directory is absent (`check=True`), values materialization
(custom write when `helm_values` is truthy, otherwise `cp` of the chart
default, `check=True`), repo registration and refresh (`check=False`),
`helm upgrade --install` (`check=True`), then the patch loop when
`kubectl_patches` is truthy.  Any exception is caught by the
`except Exception` clause and turned into `False`. -/
def setup_challenge (env : SetupEnv) (_st : Option Challenge) (c : Challenge) :
    SetupTrace :=
  let cur := some c
  if !env.chartsPresent && !env.gitCloneOk then
    { current_challenge := cur, valuesUsed := none,
      patchesAttempted := [], success := false }
  else if c.helm_values.isEmpty && !env.cpOk then
    { current_challenge := cur, valuesUsed := none,
      patchesAttempted := [], success := false }
  else
    let vs : ValuesSource :=
      if c.helm_values.isEmpty then .chartDefaults else .custom c.helm_values
    if !env.helmUpgradeOk then
      { current_challenge := cur, valuesUsed := some vs,
        patchesAttempted := [], success := false }
    else
      let attempted :=
        if c.kubectl_patches.isEmpty then []
        else (_apply_kubectl_patches env.patchFailAt c.kubectl_patches).1
      { current_challenge := cur, valuesUsed := some vs,
        patchesAttempted := attempted, success := true }

/-! ## Resource Reaper (`_cleanup`, `_force_cleanup_containers`) -/

/-- Docker-visible state the reaper acts on: whether the compose project's
resources are still up, and the names of the existing containers. -/
structure DockerWorld where
  composeResources : Bool
  containers : List String
deriving DecidableEq, Repr

/-- Environment for one reaper call: whether `docker-compose down` exits
non-zero, whether `docker ps` exits non-zero, and whether an unexpected
exception strikes inside `_force_cleanup_containers` (caught by its
`except Exception: pass`). -/
structure ReapEnv where
  composeDownFails : Bool
  psFails : Bool
  sweepRaises : Bool
deriving DecidableEq, Repr

/-- Naming tag shared by all candidate containers; the sweep's
`docker ps --filter` matches on it. -/
def candidateTag : String := "k8s_challenger-candidate-env"

/-- Step 1 of `_cleanup`: `docker-compose down --volumes --remove-orphans`
with `check=False`; a non-zero exit leaves the world unchanged and does not
raise. -/
def composeDown (env : ReapEnv) (w : DockerWorld) : DockerWorld :=
  if env.composeDownFails then w else { w with composeResources := false }

/-- Body of the `try` inside `_force_cleanup_containers`: list candidate
containers with `docker ps` (ignoring a non-zero exit) and force-remove
each match. -/
def sweepBody (env : ReapEnv) (w : DockerWorld) : Except Unit DockerWorld :=
  if env.sweepRaises then .error ()
  else if env.psFails then .ok w
  else .ok { w with containers := w.containers.filter (fun n => !(n.startsWith candidateTag)) }

/-- Embedding of `_force_cleanup_containers`: the `try` body with every
exception swallowed by `except Exception: pass`. -/
def _force_cleanup_containers (env : ReapEnv) (w : DockerWorld) : DockerWorld :=
  match sweepBody env w with
  | .ok w2 => w2
  | .error _ => w

/-- Embedding of `_cleanup` (the Resource Reaper, `reapAll`): compose
teardown first, then the container sweep, each independently best-effort. -/
def _cleanup (env : ReapEnv) (w : DockerWorld) : DockerWorld :=
  _force_cleanup_containers env (composeDown env w)

/-! ## Session Establisher (`_setup_candidate_connection`, main.py) -/

/-- One reading of the tmate connection descriptor as returned by
`get_tmate_info`: readiness flag, ssh endpoint and web endpoint. -/
structure TmateInfo where
  is_ready : Bool
  ssh_url : Option String
  web_url : Option String

/-- Environment for the connection loop: `infoAt k` is the descriptor
reading at the `k`-th poll (counted across all attempts), and `failAt k`
tells whether `_check_session_failure` sees a `failed`/`timeout` status
right after the `k`-th poll.  The relaunch of the sandbox container on a
retry and the fixed sleeps are not observable here. -/
structure TmateEnv where
  infoAt : Nat → TmateInfo
  failAt : Nat → Bool

/-- Retry bound of `_setup_candidate_connection` (`max_retries = 2`); the
outer loop runs `max_retries + 1` attempts. -/
def max_retries : Nat := 2

/-- Poll budget of one attempt (`for attempt in range(10)`). -/
def pollBudget : Nat := 10

/-- Inner poll loop of one attempt: up to `fuel` polls starting at global
poll index `k`; returns whether a ready descriptor with a truthy ssh
endpoint was found, and how many polls were consumed. -/
def attemptPoll (env : TmateEnv) : Nat → Nat → Bool × Nat
  | 0, _ => (false, 0)
  | fuel + 1, k =>
    let info := env.infoAt k
    if info.is_ready && truthyStr info.ssh_url then (true, 1)
    else if env.failAt k then (false, 1)
    else
      let rest := attemptPoll env fuel (k + 1)
      (rest.1, rest.2 + 1)

/-- Outer retry loop of `_setup_candidate_connection`: `rounds` remaining
attempts, `k` polls consumed so far; returns the boolean result of the
function and the total number of polls performed. -/
def connectionLoop (env : TmateEnv) : Nat → Nat → Bool × Nat
  | 0, k => (false, k)
  | rounds + 1, k =>
    let res := attemptPoll env pollBudget k
    if res.1 then (true, k + res.2)
    else connectionLoop env rounds (k + res.2)

/-- Embedding of `InterviewSession._setup_candidate_connection`: at most
`max_retries + 1` attempts, each polling `get_tmate_info` up to
`pollBudget` times at 1-second spacing, breaking an attempt early when
`_check_session_failure` reports a terminal status. -/
def _setup_candidate_connection (env : TmateEnv) : Bool × Nat :=
  connectionLoop env (max_retries + 1) 0

/-! ## Session Controller (`InterviewSession.start_session`, main.py) -/

/-- Session fields of `InterviewSession` relevant to the lifecycle:
`start_time`, `current_challenge` and the `session_active` flag. -/
structure SessionState where
  start_time : Option Nat
  current_challenge : Option Challenge
  session_active : Bool
deriving DecidableEq, Repr

/-- Exceptions that can escape `start_session` uncaught: a `KeyError` from
the `challenge.estimates["Lv1"/"Lv2"/"Lv3"]` accesses while building the
challenge panel, a missing manual file (the `challenge.manual` access
raises), or a failing `check=True` `docker run` inside
`start_candidate_environment`. -/
inductive StartExc where
  | estimatesKeyMissing
  | manualMissing
  | commandFailed
deriving DecidableEq, Repr

/-- Environment for one `start_session` call: the clock reading taken for
`start_time`, whether the challenge's manual file exists, whether the
`docker run` of `start_candidate_environment` succeeds, and the descriptor
environment consumed by `_setup_candidate_connection`.  The boolean result
of `setup_challenge` is discarded by `start_session`, so it does not appear
here. -/
structure StartEnv where
  now : Nat
  manualExists : Bool
  dockerRunOk : Bool
  tmate : TmateEnv

/-- Presence of the three estimate tiers read while building the challenge
panel: `estimates["Lv1"]`, `estimates["Lv2"]`, `estimates["Lv3"]`; a dict
index on a missing key raises `KeyError`. -/
def estimatesTiersPresent (es : List (String × String)) : Bool :=
  (es.lookup "Lv1").isSome && (es.lookup "Lv2").isSome && (es.lookup "Lv3").isSome

/-- Embedding of `InterviewSession.start_session`: it first assigns
`current_challenge`, `start_time` and `session_active := True`, then
builds the challenge panel (indexing `estimates` at the three tiers,
raising `KeyError` when one is absent), touches the manual (raising when
missing), runs `setup_challenge` (result ignored), starts the candidate
environment, and calls `_setup_candidate_connection`; on its failure the
method returns `False` without changing any session field, on its success
the monitoring loop runs (which leaves these fields unchanged) and the
method returns `True`. -/
def start_session (env : StartEnv) (_st : SessionState) (c : Challenge) :
    Except StartExc (SessionState × Bool) :=
  let st1 : SessionState :=
    { start_time := some env.now, current_challenge := some c, session_active := true }
  if !(estimatesTiersPresent c.estimates) then .error .estimatesKeyMissing
  else if !env.manualExists then .error .manualMissing
  else if !env.dockerRunOk then .error .commandFailed
  else if !(_setup_candidate_connection env.tmate).1 then .ok (st1, false)
  else .ok (st1, true)

/-! ## Theorems -/

/-- C1: for every call to the health probe `check_health`, the port-forward
(tunnel) process is terminated before the call returns exactly when it was
started during the call — in particular on the healthy result, on each
classified HTTP failure, on each network/timeout exception raised by the
HTTP request, and on any other exception occurring after the tunnel was
started; when the service is missing no tunnel is started at all. -/
theorem check_health_tunnel_bracket (env : HealthEnv) :
    (check_health env).tunnelTerminated = (check_health env).tunnelStarted := by
  rcases env with ⟨s, t, r⟩
  cases s <;> cases t <;> cases r <;>
    simp only [check_health, probeBody, Bool.not_true, Bool.not_false] <;>
    try rfl
  all_goals (repeat' split) <;> rfl

/-- C2: the health probe's classification is total and deterministic.  When
the API service does not exist, `check_health` returns exactly
`(false, "Service not deployed", none)` without starting any tunnel;
otherwise, for an HTTP response with status `code`: 200 yields
`healthy = true`, 404 yields "Endpoint not found", 500 yields
"Server error", 503 yields "Service unavailable", and every other code
yields the message `"HTTP " ++ toString code`, all with `healthy = false`
and the received code reported. -/
theorem check_health_classification (env : HealthEnv) (code : Nat) :
    (env.serviceExists = false →
      check_health env =
        { healthy := false, message := "Service not deployed", httpStatus := none,
          tunnelStarted := false, tunnelTerminated := false }) ∧
    (env.serviceExists = true → env.tunnelExitedEarly = false →
      env.httpResult = .ok code →
      check_health env =
        { healthy := decide (code = 200),
          message :=
            if code = 200 then "Healthy"
            else if code = 404 then "Endpoint not found"
            else if code = 500 then "Server error"
            else if code = 503 then "Service unavailable"
            else "HTTP " ++ toString code,
          httpStatus := some code,
          tunnelStarted := true, tunnelTerminated := true }) := by
  constructor
  · intro hs
    simp [check_health, hs]
  · intro hs ht hr
    simp only [check_health, probeBody, hs, ht, hr, Bool.not_true, Bool.not_false]
    by_cases h200 : code = 200 <;> by_cases h404 : code = 404 <;>
      by_cases h500 : code = 500 <;> by_cases h503 : code = 503 <;>
      simp_all

/-- Witness for C2 at concrete inputs: a missing service, and a present
service answering HTTP 418 (an unlisted code). -/
theorem check_health_classification_witness :
    check_health { serviceExists := false, tunnelExitedEarly := false,
                   httpResult := .ok 0 } =
      { healthy := false, message := "Service not deployed", httpStatus := none,
        tunnelStarted := false, tunnelTerminated := false } ∧
    check_health { serviceExists := true, tunnelExitedEarly := false,
                   httpResult := .ok 418 } =
      { healthy := false, message := "HTTP 418", httpStatus := some 418,
        tunnelStarted := true, tunnelTerminated := true } := by
  constructor
  · exact (check_health_classification ⟨false, false, .ok 0⟩ 0).1 rfl
  · have h := (check_health_classification ⟨true, false, .ok 418⟩ 418).2 rfl rfl rfl
    simpa using h

/-- C3: catalog discovery never raises (it is a total function on any list
of scenario definition files); a file that fails to parse, is not a
mapping, or is missing any of the five required fields is excluded from
the catalog, every file containing all five fields parses to a challenge
that is included, and every catalog entry comes from some input file. -/
theorem discover_challenges_spec (files : List SourceFile) :
    (∀ f : SourceFile, fileIsValid f = false → _parse_challenge_file f = none) ∧
    (∀ f : SourceFile, fileIsValid f = true →
      ∃ c : Challenge, _parse_challenge_file f = some c) ∧
    (∀ f ∈ files, ∀ c : Challenge,
      _parse_challenge_file f = some c → c ∈ discover_challenges files) ∧
    (∀ c ∈ discover_challenges files,
      ∃ f ∈ files, _parse_challenge_file f = some c) := by
  refine ⟨?_, ?_, ?_, ?_⟩
  · rintro ⟨fn, content⟩ hv
    cases content with
    | failure => rfl
    | nonDict => rfl
    | dict d =>
      rcases d with ⟨n, de, hval, kp, es⟩
      cases n <;> cases de <;> cases hval <;> cases kp <;> cases es <;>
        simp_all [fileIsValid, _parse_challenge_file]
  · rintro ⟨fn, content⟩ hv
    cases content with
    | failure => simp [fileIsValid] at hv
    | nonDict => simp [fileIsValid] at hv
    | dict d =>
      rcases d with ⟨n, de, hval, kp, es⟩
      cases n <;> cases de <;> cases hval <;> cases kp <;> cases es <;>
        simp_all [fileIsValid, _parse_challenge_file]
  · intro f hf c hc
    exact List.mem_filterMap.mpr ⟨f, hf, hc⟩
  · intro c hc
    exact List.mem_filterMap.mp hc

/-- Witness for C3 at concrete inputs: a file missing `description` is
excluded, a file with all five fields is parsed and lands in the catalog. -/
theorem discover_challenges_spec_witness :
    fileIsValid ⟨"bad.yaml", .dict ⟨some "b", none, some [], some [], some []⟩⟩ = false ∧
    _parse_challenge_file
      ⟨"bad.yaml", .dict ⟨some "b", none, some [], some [], some []⟩⟩ = none ∧
    fileIsValid ⟨"good.yaml", .dict ⟨some "g", some "d", some [], some [], some []⟩⟩ = true ∧
    (⟨"good.yaml", "g", "d", [], [], []⟩ : Challenge) ∈
      discover_challenges
        [⟨"bad.yaml", .dict ⟨some "b", none, some [], some [], some []⟩⟩,
         ⟨"good.yaml", .dict ⟨some "g", some "d", some [], some [], some []⟩⟩] := by
  refine ⟨by decide, ?_, by decide, ?_⟩
  · exact (discover_challenges_spec []).1
      ⟨"bad.yaml", .dict ⟨some "b", none, some [], some [], some []⟩⟩ (by decide)
  · exact (discover_challenges_spec
      [⟨"bad.yaml", .dict ⟨some "b", none, some [], some [], some []⟩⟩,
       ⟨"good.yaml", .dict ⟨some "g", some "d", some [], some [], some []⟩⟩]).2.2.1
      ⟨"good.yaml", .dict ⟨some "g", some "d", some [], some [], some []⟩⟩
      (by simp) ⟨"good.yaml", "g", "d", [], [], []⟩ (by decide)

/-- C4: provisioning always returns a boolean and never raises to its
caller (its Lean embedding is a total function into a trace whose only
outcome channel is `success`); the boolean is `true` exactly when every
step run with a required check succeeded — the `git clone` when the charts
directory is absent, the copy of the default values file when the
challenge supplies no `helm_values`, and the `helm upgrade --install` —
and `false` as soon as any of them failed, with no further error detail.
Per-patch failures (`patchFailAt`) do not appear in the right-hand side:
they never affect the boolean. -/
theorem setup_challenge_boolean_boundary (env : SetupEnv) (st : Option Challenge)
    (c : Challenge) :
    (setup_challenge env st c).success =
      ((env.chartsPresent || env.gitCloneOk) &&
        (!c.helm_values.isEmpty || env.cpOk) && env.helmUpgradeOk) := by
  rcases env with ⟨charts, clone, cp, helm, pf⟩
  cases charts <;> cases clone <;> cases cp <;> cases helm <;>
    cases hv : c.helm_values.isEmpty <;>
    simp [setup_challenge, hv]

/-- C10: `setup_challenge` assigns `current_challenge := c` before
attempting any provisioning step, so after the call the field refers to
`c` in every environment — including every failing one, where the call
returns `false` — and it is never rolled back on error. -/
theorem setup_challenge_sets_current (env : SetupEnv) (st : Option Challenge)
    (c : Challenge) :
    (setup_challenge env st c).current_challenge = some c := by
  rcases env with ⟨charts, clone, cp, helm, pf⟩
  cases charts <;> cases clone <;> cases cp <;> cases helm <;>
    cases hv : c.helm_values.isEmpty <;>
    simp [setup_challenge, hv]

/-- C9: during provisioning, a challenge supplying non-empty `helm_values`
has them serialized verbatim as the effective configuration, and otherwise
the chart's upstream default configuration is copied (provided the step is
reached and succeeds); in particular a challenge with empty `helm_values`
and empty `kubectl_patches` provisions with the fallback default
configuration, attempts zero patches, and returns success whenever the
required commands succeed. -/
theorem setup_challenge_values_materialization (env : SetupEnv)
    (st : Option Challenge) (c : Challenge) :
    ((setup_challenge env st c).valuesUsed =
      if !(env.chartsPresent || env.gitCloneOk) then none
      else if c.helm_values.isEmpty then
        (if env.cpOk then some ValuesSource.chartDefaults else none)
      else some (ValuesSource.custom c.helm_values)) ∧
    (c.helm_values = [] → c.kubectl_patches = [] →
      env.chartsPresent = true → env.cpOk = true → env.helmUpgradeOk = true →
      (setup_challenge env st c).valuesUsed = some ValuesSource.chartDefaults ∧
      (setup_challenge env st c).patchesAttempted = [] ∧
      (setup_challenge env st c).success = true) := by
  constructor
  · rcases env with ⟨charts, clone, cp, helm, pf⟩
    cases charts <;> cases clone <;> cases cp <;> cases helm <;>
      cases hv : c.helm_values.isEmpty <;>
      simp [setup_challenge, hv]
  · intro h1 h2 h3 h4 h5
    refine ⟨?_, ?_, ?_⟩ <;> simp [setup_challenge, h1, h2, h3, h4, h5]

/-- Witness for C9 at a concrete input: an all-successful environment and a
challenge with empty `helm_values` and empty `kubectl_patches`. -/
theorem setup_challenge_values_materialization_witness :
    (setup_challenge
        ⟨true, true, true, true, fun _ => false⟩ none
        ⟨"a.yaml", "a", "d", [], [], []⟩).valuesUsed =
      some ValuesSource.chartDefaults ∧
    (setup_challenge
        ⟨true, true, true, true, fun _ => false⟩ none
        ⟨"a.yaml", "a", "d", [], [], []⟩).patchesAttempted = [] ∧
    (setup_challenge
        ⟨true, true, true, true, fun _ => false⟩ none
        ⟨"a.yaml", "a", "d", [], [], []⟩).success = true :=
  (setup_challenge_values_materialization
      ⟨true, true, true, true, fun _ => false⟩ none
      ⟨"a.yaml", "a", "d", [], [], []⟩).2 rfl rfl rfl rfl rfl

/-- Helper: one attempt's inner loop consumes at most `fuel` polls. -/
theorem attemptPoll_le (env : TmateEnv) (fuel k : Nat) :
    (attemptPoll env fuel k).2 ≤ fuel := by
  induction fuel generalizing k with
  | zero => simp [attemptPoll]
  | succ n ih =>
    unfold attemptPoll
    by_cases h1 : (env.infoAt k).is_ready && truthyStr (env.infoAt k).ssh_url
    · simp [h1]
    · by_cases h2 : env.failAt k
      · simp [h1, h2]
      · simp only [h1, h2, if_false, Bool.false_eq_true]
        exact Nat.succ_le_succ (ih (k + 1))

/-- Helper: the retry loop starting with `k` polls already consumed uses at
most `rounds * pollBudget` further polls. -/
theorem connectionLoop_le (env : TmateEnv) (rounds k : Nat) :
    (connectionLoop env rounds k).2 ≤ k + rounds * pollBudget := by
  induction rounds generalizing k with
  | zero => simp [connectionLoop]
  | succ n ih =>
    unfold connectionLoop
    by_cases h : (attemptPoll env pollBudget k).1
    · have := attemptPoll_le env pollBudget k
      simp only [h, if_true]
      calc k + (attemptPoll env pollBudget k).2 ≤ k + pollBudget := by omega
        _ ≤ k + (n + 1) * pollBudget := by
            have : pollBudget ≤ (n + 1) * pollBudget := Nat.le_mul_of_pos_left _ (by omega)
            omega
    · have h1 := attemptPoll_le env pollBudget k
      have h2 := ih (k + (attemptPoll env pollBudget k).2)
      simp only [h, if_false, Bool.false_eq_true]
      calc (connectionLoop env n (k + (attemptPoll env pollBudget k).2)).2
          ≤ k + (attemptPoll env pollBudget k).2 + n * pollBudget := h2
        _ ≤ k + (n + 1) * pollBudget := by
            have : (n + 1) * pollBudget = n * pollBudget + pollBudget := by ring
            omega

/-- C6: for every sequence of connection-descriptor readings, the Session
Establisher performs at most `max_retries + 1` full attempts, each polling
the descriptor at most `pollBudget` times, so it never performs more than
`(max_retries + 1) * pollBudget = 30` polls in total before returning. -/
theorem setup_candidate_connection_poll_bound (env : TmateEnv) :
    (_setup_candidate_connection env).2 ≤ (max_retries + 1) * pollBudget ∧
    (∀ k, (attemptPoll env pollBudget k).2 ≤ pollBudget) := by
  constructor
  · have h := connectionLoop_le env (max_retries + 1) 0
    simpa [_setup_candidate_connection] using h
  · intro k
    exact attemptPoll_le env pollBudget k

/-- Helper: filtering a list twice with the same predicate is the same as
filtering once. -/
theorem filter_twice (p : String → Bool) (l : List String) :
    (l.filter p).filter p = l.filter p := by
  induction l with
  | nil => rfl
  | cons x xs ih =>
    by_cases h : p x <;> simp [List.filter, h, ih]

/-- C7: the reaper never fails its caller — it is a total function whose
internal sweep errors are swallowed (`sweepRaises` only makes the sweep a
no-op), a failing `docker-compose down` does not prevent the container
sweep (the `containers` equation does not mention `composeDownFails` at
all), and the reaper is idempotent: a second consecutive call with the
same environment changes nothing, even when the first call already removed
every matching resource. -/
theorem reapAll_best_effort_idempotent (env : ReapEnv) (w : DockerWorld) :
    ((_cleanup env w).composeResources =
      if env.composeDownFails then w.composeResources else false) ∧
    ((_cleanup env w).containers =
      if env.sweepRaises || env.psFails then w.containers
      else w.containers.filter (fun n => !(n.startsWith candidateTag))) ∧
    _cleanup env (_cleanup env w) = _cleanup env w := by
  rcases env with ⟨cdf, psf, swr⟩
  rcases w with ⟨cr, cs⟩
  cases cdf <;> cases psf <;> cases swr <;>
    simp [_cleanup, _force_cleanup_containers, sweepBody, composeDown, filter_twice]

/-- Helper: the list of attempted patch commands is the in-order
`filterMap` of the per-entry step, independent of the starting warning
index and of which commands fail. -/
theorem applyPatchesAux_fst (ns : String) (failAt : Nat → Bool) (k : Nat)
    (ps : List PatchEntry) :
    (applyPatchesAux ns failAt k ps).1 = ps.filterMap (patchStep ns) := by
  induction ps generalizing k with
  | nil => rfl
  | cons p rest ih =>
    unfold applyPatchesAux
    cases h : patchStep ns p with
    | none => simp [h, ih k]
    | some cmd => simp [h, ih (k + 1)]

/-- C8: patch application processes the entries in list order — the
attempted `kubectl patch` commands are exactly the in-order `filterMap` of
the per-entry step; an entry whose `resource` or `name` is missing (or
empty) or whose patch body is empty is skipped without error; the patch
strategy defaults to `"merge"` when unspecified; and a failure applying
one patch never changes which subsequent patches are attempted (the
attempted list is the same for every failure pattern — failures are only
counted as logged warnings). -/
theorem apply_kubectl_patches_spec (failAt : Nat → Bool) (ps : List PatchEntry) :
    ((_apply_kubectl_patches failAt ps).1 = ps.filterMap (patchStep "flagsmith")) ∧
    (∀ g : Nat → Bool,
      (_apply_kubectl_patches g ps).1 = (_apply_kubectl_patches failAt ps).1) ∧
    (∀ p : PatchEntry, patchStep "flagsmith" p = none ↔
      (truthyStr p.resource = false ∨ truthyStr p.name = false ∨ p.patch = [])) ∧
    (∀ p : PatchEntry, p.patch_type = none →
      ∀ cmd : PatchCmd, patchStep "flagsmith" p = some cmd →
        cmd.patchType = "merge") := by
  refine ⟨applyPatchesAux_fst _ _ _ _, ?_, ?_, ?_⟩
  · intro g
    rw [_apply_kubectl_patches, _apply_kubectl_patches,
      applyPatchesAux_fst, applyPatchesAux_fst]
  · intro p
    unfold patchStep
    by_cases h1 : truthyStr p.resource <;> by_cases h2 : truthyStr p.name <;>
      by_cases h3 : p.patch.isEmpty <;>
      simp_all [List.isEmpty_iff]
  · intro p hp cmd hcmd
    unfold patchStep at hcmd
    by_cases h1 : truthyStr p.resource <;> by_cases h2 : truthyStr p.name <;>
      by_cases h3 : p.patch.isEmpty <;>
      simp_all [hp]
    subst hcmd
    simp [hp]

/-- Witness for C8 at concrete inputs: a skipped entry (empty body), an
entry with an unspecified strategy resolved to `"merge"`, and the attempted
list surviving a failure of the first command. -/
theorem apply_kubectl_patches_spec_witness :
    (patchStep "flagsmith" ⟨some "deployment", some "api", none, [], none⟩ = none) ∧
    (patchStep "flagsmith"
        ⟨some "deployment", some "api", none, [("spec", "x")], none⟩ =
      some ⟨"deployment", "api", "flagsmith", "merge", [("spec", "x")]⟩) ∧
    ((_apply_kubectl_patches (fun _ => true)
        [⟨some "deployment", some "api", none, [("spec", "x")], none⟩,
         ⟨some "deployment", some "task", none, [("spec", "y")], some "json"⟩]).1 =
      (_apply_kubectl_patches (fun _ => false)
        [⟨some "deployment", some "api", none, [("spec", "x")], none⟩,
         ⟨some "deployment", some "task", none, [("spec", "y")], some "json"⟩]).1) := by
  refine ⟨?_, by decide, ?_⟩
  · exact (apply_kubectl_patches_spec (fun _ => false) []).2.2.1
      ⟨some "deployment", some "api", none, [], none⟩ |>.mpr (Or.inr (Or.inr rfl))
  · exact (apply_kubectl_patches_spec (fun _ => false)
      [⟨some "deployment", some "api", none, [("spec", "x")], none⟩,
       ⟨some "deployment", some "task", none, [("spec", "y")], some "json"⟩]).2.1
      (fun _ => true)

/-- Counterexample to C5: for a challenge carrying all three estimate
tiers, with an existing manual, a successful container start, and a
descriptor that never becomes ready, `start_session` returns `false`
(establish failed) yet the returned state carries `session_active = true`
— the flag was switched to active at the top of the call, before any
establish step, and is not reset on the failure path, contradicting the
claim that the state is left idle with the active flag false. -/
theorem start_session_active_flag_counterexample :
    start_session
        ⟨0, true, true, ⟨fun _ => ⟨false, none, none⟩, fun _ => false⟩⟩
        ⟨none, none, false⟩
        ⟨"c.yaml", "c", "d", [], [], [("Lv1", "10"), ("Lv2", "20"), ("Lv3", "30")]⟩ =
      Except.ok
        (⟨some 0,
          some ⟨"c.yaml", "c", "d", [], [],
            [("Lv1", "10"), ("Lv2", "20"), ("Lv3", "30")]⟩, true⟩, false) := by
  rfl

/-- C5 (amended): `start_session` sets the active flag to `true`
unconditionally at entry, before provisioning and establishment; for a
challenge carrying the three estimate tiers and an existing manual,
whenever the container start succeeds and the connection-establishment
stage fails, it returns `false` while leaving the session fields set —
`session_active = true`, `current_challenge` pointing at the challenge,
`start_time` recorded. -/
theorem start_session_establish_failure (env : StartEnv) (st : SessionState)
    (c : Challenge) (hest : estimatesTiersPresent c.estimates = true)
    (hm : env.manualExists = true) (hd : env.dockerRunOk = true)
    (he : (_setup_candidate_connection env.tmate).1 = false) :
    start_session env st c =
      Except.ok (⟨some env.now, some c, true⟩, false) := by
  unfold start_session
  simp [hest, hm, hd, he]

/-- Witness for the amended C5 at a concrete input: a challenge carrying
the three estimate tiers and descriptor readings that never report
ready. -/
theorem start_session_establish_failure_witness :
    (estimatesTiersPresent
        [("Lv1", "5"), ("Lv2", "15"), ("Lv3", "25")] = true) ∧
    ((⟨0, true, true, ⟨fun _ => ⟨false, none, none⟩, fun _ => false⟩⟩ :
        StartEnv).manualExists = true) ∧
    ((_setup_candidate_connection
        ⟨fun _ => ⟨false, none, none⟩, fun _ => false⟩).1 = false) ∧
    start_session
        ⟨0, true, true, ⟨fun _ => ⟨false, none, none⟩, fun _ => false⟩⟩
        ⟨none, none, true⟩
        ⟨"w.yaml", "w", "d", [], [], [("Lv1", "5"), ("Lv2", "15"), ("Lv3", "25")]⟩ =
      Except.ok
        (⟨some 0,
          some ⟨"w.yaml", "w", "d", [], [],
            [("Lv1", "5"), ("Lv2", "15"), ("Lv3", "25")]⟩, true⟩, false) :=
  ⟨rfl, rfl, rfl,
    start_session_establish_failure
      ⟨0, true, true, ⟨fun _ => ⟨false, none, none⟩, fun _ => false⟩⟩
      ⟨none, none, true⟩
      ⟨"w.yaml", "w", "d", [], [], [("Lv1", "5"), ("Lv2", "15"), ("Lv3", "25")]⟩
      rfl rfl rfl rfl⟩
